import Mathlib

/-!
Verification of the libskia build script (`script/build.py`).

The script is a linear orchestration procedure: it mutates the `PATH`
environment variable, shells out to three external processes (dependency
sync, `gn` project generation, `ninja` build) and finally packages the
build output into a gzipped tarball.

The shallow embedding below models the process state explicitly: the
current working directory, the `PATH` environment variable, the
return codes the external processes will report, and an event trace
recording every externally visible side effect in order.  Every Python
function of the script becomes a Lean function of type
`World → World × α`.  Python exception propagation through
`scoped_cwd` is modelled by the body returning an arbitrary result
type `α` (instantiable with `Except ε β`): the `finally` clause of the
context manager restores the directory regardless of the result value.
-/

namespace LibskiaBuild

/-- Result of `subprocess.run`: mirrors the Python class `CompletedProcess`,
keeping the fields the script can observe. -/
structure CompletedProcess where
  args : List String
  returncode : Int
deriving Repr, DecidableEq

/-- Python truthiness of a `CompletedProcess`.  The class defines
neither `__bool__` nor `__len__`, so `bool(result)` is `True` for
every instance, whatever `returncode` is. -/
def CompletedProcess.toBool (_ : CompletedProcess) : Bool := true

/-- Externally visible side effects of the script, in the order they
happen. -/
inductive Event where
  | setEnvPath (value : String)
  | runProcess (cwd : String) (cmd : List String) (returncode : Int)
  | runShell (cwd : String) (command : String) (returncode : Int)
  | rmtree (cwd : String) (path : String)
  | mkdirParents (cwd : String) (path : String)
  | copyFile (cwd : String) (src : String) (dst : String)
  | copyTree (cwd : String) (src : String) (dst : String)
  | makeTarball (cwd : String) (srcdir : String) (filename : String) (arcname : String)
deriving Repr, DecidableEq

/-- The process state the script can read or mutate.

`outExists` records whether the directory `out` under the repository
root exists (the only `os.path.exists` query the script makes).
`procRets` is the stream of return codes the external processes will
report, one per `subprocess.run` call, in order.  `trace` records the
side effects performed so far. -/
structure World where
  cwd : String
  pathEnv : String
  outExists : Bool
  procRets : List Int
  trace : List Event
deriving Repr, DecidableEq

/-- A POSIX path is absolute when it starts with a slash. -/
def isAbsolute (p : String) : Bool :=
  match p.data with
  | [] => false
  | c :: _ => c == '/'

/-- The function `os.path.join` for two components, which is also how a relative
`os.chdir` argument resolves against the current directory: an
absolute second component replaces the first. -/
def joinPath (a b : String) : String :=
  if isAbsolute b then b else a ++ "/" ++ b

/-- The call `os.getcwd()`. -/
def getcwd (w : World) : String := w.cwd

/-- The call `os.chdir(p)`. -/
def chdir (p : String) (w : World) : World :=
  { w with cwd := joinPath w.cwd p }

/-- The `scoped_cwd` context manager: save `os.getcwd()`, `os.chdir`
to `path`, run the body, and in a `finally` clause `os.chdir` back to
the saved directory.  The result type of the body, `α`, may be `Except ε β` to
model a body that raises: the restoring `chdir` runs either way. -/
def scoped_cwd {α : Type} (path : String) (body : World → World × α) (w : World) : World × α :=
  let cwd := getcwd w
  let res := body (chdir path w)
  (chdir cwd res.1, res.2)

/-- The call `subprocess.run(cmd)` with a list of arguments: blocks until the
external process finishes, consuming the next scripted return code,
and records the invocation in the trace. -/
def subprocess_run (cmd : List String) (w : World) : World × CompletedProcess :=
  let ret := w.procRets.headD 0
  ({ w with procRets := w.procRets.tail,
            trace := w.trace ++ [Event.runProcess w.cwd cmd ret] },
   { args := cmd, returncode := ret })

/-- The call `subprocess.run(command, shell=True)` with a single command string. -/
def subprocess_run_shell (command : String) (w : World) : World × CompletedProcess :=
  let ret := w.procRets.headD 0
  ({ w with procRets := w.procRets.tail,
            trace := w.trace ++ [Event.runShell w.cwd command ret] },
   { args := [command], returncode := ret })

/-- The query `os.path.exists(p)`: the model tracks existence of the single path
the script ever queries, the directory `out` under the repository
root. -/
def path_exists (p : String) (w : World) : Bool :=
  if p = "out" then w.outExists else false

/-- The call `shutil.rmtree(p)`: removes the tree, so `out` no longer exists if
that was the target. -/
def rmtree (p : String) (w : World) : World :=
  { w with outExists := if p = "out" then false else w.outExists,
           trace := w.trace ++ [Event.rmtree w.cwd p] }

/-- The call `pathlib.Path(p).mkdir(parents=True, exist_ok=True)`.  The script
only ever creates directories underneath `out` at the repository root,
so a creation marks `out` as existing. -/
def mkdir_parents (p : String) (w : World) : World :=
  { w with outExists := true,
           trace := w.trace ++ [Event.mkdirParents w.cwd p] }

/-- The call `shutil.copy2(src, dst)`. -/
def copy2 (src dst : String) (w : World) : World :=
  { w with trace := w.trace ++ [Event.copyFile w.cwd src dst] }

/-- The call `distutils.dir_util.copy_tree(src, dst)`. -/
def copy_tree (src dst : String) (w : World) : World :=
  { w with trace := w.trace ++ [Event.copyTree w.cwd src dst] }

/-- One step of `os.path.basename` reading the path left to right: a
slash discards everything collected so far. -/
def basenameStep (acc : List Char) (c : Char) : List Char :=
  if c = '/' then [] else acc ++ [c]

/-- The call `os.path.basename(p)`: the part of `p` after its last slash. -/
def basename (p : String) : String :=
  String.mk (p.data.foldl basenameStep [])

/-- The function `make_tarball(srcdir, filename)`: opens `filename` in `w:gz` mode
and adds `srcdir` under the arcname `os.path.basename(srcdir)`, which
becomes the single top-level folder inside the archive. -/
def make_tarball (srcdir filename : String) (w : World) : World :=
  { w with trace := w.trace ++ [Event.makeTarball w.cwd srcdir filename (basename srcdir)] }

/-- The configuration constant `CC` of the script. -/
def CC : String := "clang"

/-- The configuration constant `CXX` of the script. -/
def CXX : String := "clang++"

/-- The configuration constant `IS_OFFICIAL_BUILD` of the script. -/
def IS_OFFICIAL_BUILD : Bool := true

/-- The configuration constant `IS_DEBUG` of the script. -/
def IS_DEBUG : Bool := false

/-- The configuration constant `NAME` of the script. -/
def NAME : String := "libskia"

/-- The configuration constant `VERSION` of the script. -/
def VERSION : String := "m63"

/-- The depot_tools directory: the repository root joined with
`third_party` and `depot_tools`.  Here `get_root_path()` is the runtime absolute path of the repository root,
passed in as the parameter `root` throughout. -/
def depotToolsDir (root : String) : String :=
  joinPath (joinPath root "third_party") "depot_tools"

/-- The function `set_environment()`: prepend the depot_tools directory to the
`PATH` environment variable.  Nothing in the script ever undoes this
mutation. -/
def set_environment (root : String) (w : World) : World :=
  let p := depotToolsDir root ++ ":" ++ w.pathEnv
  { w with pathEnv := p, trace := w.trace ++ [Event.setEnvPath p] }

/-- The function `sync_deps()`: inside a `scoped_cwd` at the repository root, chdir
into `third_party/skia` and run the dependency sync command. -/
def sync_deps (root : String) (w : World) : World × CompletedProcess :=
  scoped_cwd root (fun w0 =>
    subprocess_run ["python", "tools/git-sync-deps"]
      (chdir (joinPath "third_party" "skia") w0)) w

/-- The `--args` list the script assembles for `gn`, in source order:
the debug flag, the C compiler, the C++ compiler, the official-build
flag. -/
def gnArgList (is_debug : Bool) (cc cxx : String) (is_official_build : Bool) : List String :=
  [ if is_debug then "is_debug=true" else "is_debug=false",
    "cc=\"" ++ cc ++ "\"",
    "cxx=\"" ++ cxx ++ "\"",
    if is_official_build then "is_official_build=true" else "is_official_build=false" ]

/-- The shell command string `generate_ninja_project` builds:
`bin/gn gen out/Release --args=...` (single quotes around the
argument list) with the space-joined argument
list between the single quotes. -/
def gnCommand (is_debug : Bool) (cc cxx : String) (is_official_build : Bool) : String :=
  "bin/gn gen out/Release --args=\x27"
    ++ String.intercalate " " (gnArgList is_debug cc cxx is_official_build) ++ "\x27"

/-- The function `generate_ninja_project()` with the two build flags made explicit
parameters (the script reads them from the module constants): inside a
`scoped_cwd` at the repository root, chdir into `third_party/skia` and
run the `gn` command through the shell. -/
def generate_ninja_project_with (is_debug is_official_build : Bool) (root : String)
    (w : World) : World × CompletedProcess :=
  scoped_cwd root (fun w0 =>
    subprocess_run_shell (gnCommand is_debug CC CXX is_official_build)
      (chdir (joinPath "third_party" "skia") w0)) w

/-- The function `generate_ninja_project()` as shipped, at the module constants
`IS_DEBUG` and `IS_OFFICIAL_BUILD`. -/
def generate_ninja_project (root : String) (w : World) : World × CompletedProcess :=
  generate_ninja_project_with IS_DEBUG IS_OFFICIAL_BUILD root w

/-- The function `build_ninja_project()`: inside a `scoped_cwd` at the repository
root, chdir into `third_party/skia` and run `ninja -C out/Release`. -/
def build_ninja_project (root : String) (w : World) : World × CompletedProcess :=
  scoped_cwd root (fun w0 =>
    subprocess_run ["ninja", "-C", "out/Release"]
      (chdir (joinPath "third_party" "skia") w0)) w

/-- The folder name `"%s-%s-%s" % (NAME, VERSION, ARCH)`; the runtime
architecture string `platform.processor()` is the parameter `arch`. -/
def sub_folder (arch : String) : String :=
  NAME ++ "-" ++ VERSION ++ "-" ++ arch

/-- The function `package()`: inside a `scoped_cwd` at the repository root, delete
a pre-existing `out` tree, recreate `out/NAME-VERSION-ARCH/lib` and
`.../include`, copy the static library and the include tree in, chdir
into `out` and build the tarball `NAME-VERSION-ARCH.tar.gz` from the
folder `NAME-VERSION-ARCH`. -/
def package (root arch : String) (w : World) : World × Unit :=
  scoped_cwd root (fun w0 =>
    let tmp_dir := "out"
    let w1 := if path_exists tmp_dir w0 then rmtree tmp_dir w0 else w0
    let sub := sub_folder arch
    let dst := tmp_dir ++ "/" ++ sub
    let w2 := mkdir_parents (dst ++ "/lib") w1
    let w3 := mkdir_parents (dst ++ "/include") w2
    let w4 := copy2 "third_party/skia/out/Release/libskia.a" (dst ++ "/lib") w3
    let w5 := copy_tree "third_party/skia/include" (dst ++ "/include") w4
    let w6 := chdir "out" w5
    (make_tarball sub (sub ++ ".tar.gz") w6, ())) w

/-- The function `main()`: set the environment, then run the three build stages in
order, each guarded by `if not result: return 1` on the
`CompletedProcess` the stage returned, then package, then return 0. -/
def main (root arch : String) (w : World) : World × Int :=
  let w0 := set_environment root w
  let s := sync_deps root w0
  if s.2.toBool = false then (s.1, 1) else
  let g := generate_ninja_project root s.1
  if g.2.toBool = false then (g.1, 1) else
  let b := build_ninja_project root g.1
  if b.2.toBool = false then (b.1, 1) else
  ((package root arch b.1).1, 0)

/-- The process entry point `sys.exit(main())`: the interpreter hands
the process its command-line arguments, and `main` ignores them. -/
def script_main (argv : List String) (root arch : String) (w : World) : World × Int :=
  main root arch w

/-! ## Helper lemmas -/

/-- A path whose saved value is absolute is restored exactly by the
final `chdir` of `scoped_cwd`. -/
theorem joinPath_absolute (a b : String) (h : isAbsolute b = true) :
    joinPath a b = b := by
  simp [joinPath, h]

/-- Folding `basenameStep` over a slash-free character list appends
the whole list to the accumulator. -/
theorem foldl_basenameStep_no_slash (l : List Char) (h : '/' ∉ l) :
    ∀ acc, l.foldl basenameStep acc = acc ++ l := by
  induction l with
  | nil => intro acc; simp
  | cons c cs ih =>
    intro acc
    have hc : ¬ c = '/' := by
      intro hc; exact h (hc ▸ List.mem_cons_self c cs)
    have hcs : '/' ∉ cs := fun hm => h (List.mem_cons_of_mem c hm)
    simp only [List.foldl_cons, basenameStep, if_neg hc]
    rw [ih hcs]
    simp

/-- The function `basename` is the identity on a string without a slash. -/
theorem basename_no_slash (s : String) (h : '/' ∉ s.data) : basename s = s := by
  obtain ⟨d⟩ := s
  simp only [basename]
  rw [foldl_basenameStep_no_slash d h]
  simp

/-- The folder name has no slash when `arch` has none. -/
theorem sub_folder_no_slash (arch : String) (h : '/' ∉ arch.data) :
    '/' ∉ (sub_folder arch).data := by
  intro hm
  simp only [sub_folder, NAME, VERSION, String.data_append, List.mem_append] at hm
  rcases hm with ((((h1 | h1) | h1) | h1) | h1)
  · exact absurd h1 (by decide)
  · exact absurd h1 (by decide)
  · exact absurd h1 (by decide)
  · exact absurd h1 (by decide)
  · exact h h1

/-- Literal-path evaluation: `skia` is a relative path. -/
theorem isAbs_skia : isAbsolute "skia" = false := by decide

/-- Literal-path evaluation: `out` is a relative path. -/
theorem isAbs_out : isAbsolute "out" = false := by decide

/-- Literal-path evaluation: `third_party/skia` is a relative path. -/
theorem isAbs_tps : isAbsolute "third_party/skia" = false := by decide

/-- Literal-path evaluation: `third_party` is a relative path. -/
theorem isAbs_tp : isAbsolute "third_party" = false := by decide

/-- Literal-path evaluation: `depot_tools` is a relative path. -/
theorem isAbs_dt : isAbsolute "depot_tools" = false := by decide

/-- Literal-path evaluation: joining `third_party` and `skia`. -/
theorem tp_cat : (("third_party" ++ "/") ++ "skia" : String) = "third_party/skia" := by decide

/-- The full event trace of one `package` run from a repository root
given as an absolute path: optionally delete a pre-existing `out`
tree, create the `lib` and `include` folders, copy the static library
and the include tree in, then build the tarball. -/
theorem package_trace_eq (root arch : String) (w : World)
    (habs : isAbsolute root = true) :
    (package root arch w).1.trace = w.trace ++
      (if w.outExists then [Event.rmtree root "out"] else []) ++
      [Event.mkdirParents root ("out" ++ "/" ++ sub_folder arch ++ "/lib"),
       Event.mkdirParents root ("out" ++ "/" ++ sub_folder arch ++ "/include"),
       Event.copyFile root "third_party/skia/out/Release/libskia.a" ("out" ++ "/" ++ sub_folder arch ++ "/lib"),
       Event.copyTree root "third_party/skia/include" ("out" ++ "/" ++ sub_folder arch ++ "/include"),
       Event.makeTarball (joinPath root "out") (sub_folder arch) (sub_folder arch ++ ".tar.gz") (basename (sub_folder arch))] := by
  cases hout : w.outExists <;>
    simp [package, scoped_cwd, chdir, getcwd, path_exists, rmtree, mkdir_parents,
      copy2, copy_tree, make_tarball, joinPath, habs, hout, isAbs_skia, isAbs_out,
      isAbs_tps, tp_cat]

/-! ## Claim theorems -/

/-- C2: for every use of `scoped_cwd`, the working directory after the
scoped block equals the working directory at entry — for any body,
whether it completes normally, raises (result type `Except`), or
performs further directory changes of its own — provided the entry
directory is absolute, as `os.getcwd()` always is. -/
theorem scoped_cwd_restores_cwd {α : Type} (path : String) (body : World → World × α)
    (w : World) (h : isAbsolute w.cwd = true) :
    ((scoped_cwd path body w).1).cwd = w.cwd := by
  simp [scoped_cwd, chdir, getcwd, joinPath_absolute _ _ h]

/-- Witness for C2: a concrete scoped block whose body both changes
directory again and raises; the working directory is restored. -/
theorem scoped_cwd_restores_cwd_witness :
    ((scoped_cwd "/repo"
        (fun w => (chdir "third_party" w, (Except.error 7 : Except Nat Nat)))
        { cwd := "/home/user", pathEnv := "/usr/bin", outExists := true,
          procRets := [], trace := [] }).1).cwd = "/home/user" :=
  scoped_cwd_restores_cwd "/repo"
    (fun w => (chdir "third_party" w, (Except.error 7 : Except Nat Nat)))
    { cwd := "/home/user", pathEnv := "/usr/bin", outExists := true,
      procRets := [], trace := [] } (by decide)

/-- C7: the script takes no arguments — `main` never reads `argv`, so
two runs differing only in the command-line arguments perform the same
steps and return the same exit code. -/
theorem script_main_independent_of_argv (argv argv2 : List String)
    (root arch : String) (w : World) :
    script_main argv root arch w = script_main argv2 root arch w := rfl

/-- C10: with the shipped constants, the `gn` command string is
exactly the quoted gn invocation with the four arguments in fixed
order, and that exact string is the
shell command `generate_ninja_project` hands to the external process. -/
theorem generate_command_exact (root : String) (w : World) :
    gnCommand IS_DEBUG CC CXX IS_OFFICIAL_BUILD =
      "bin/gn gen out/Release --args=\x27is_debug=false cc=\"clang\" cxx=\"clang++\" is_official_build=true\x27"
    ∧ ∃ d : String,
      (generate_ninja_project root w).1.trace = w.trace ++
        [Event.runShell d
          "bin/gn gen out/Release --args=\x27is_debug=false cc=\"clang\" cxx=\"clang++\" is_official_build=true\x27"
          (w.procRets.headD 0)] := by
  constructor
  · rfl
  · exact ⟨joinPath (joinPath w.cwd root) (joinPath "third_party" "skia"), rfl⟩

/-- C1: the claim says `main` returns 1 when a build stage reports
failure and that the check short-circuits.  The code checks
`if not result:` on a `CompletedProcess`, which is always truthy in
Python, so the check never fires: with all three external processes
reporting return code 1, `main` still runs the later stages, still
packages, and still returns 0. -/
theorem main_returns_zero_despite_failed_stages :
    (main "/repo" "x86_64"
      { cwd := "/repo", pathEnv := "/usr/bin", outExists := false,
        procRets := [1, 1, 1], trace := [] }).2 = 0 ∧
    Event.runProcess "/repo/third_party/skia" ["ninja", "-C", "out/Release"] 1 ∈
      (main "/repo" "x86_64"
        { cwd := "/repo", pathEnv := "/usr/bin", outExists := false,
          procRets := [1, 1, 1], trace := [] }).1.trace ∧
    Event.makeTarball "/repo/out" "libskia-m63-x86_64" "libskia-m63-x86_64.tar.gz" "libskia-m63-x86_64" ∈
      (main "/repo" "x86_64"
        { cwd := "/repo", pathEnv := "/usr/bin", outExists := false,
          procRets := [1, 1, 1], trace := [] }).1.trace := by decide

/-- C3: the packaging step builds a gzipped tarball whose file name is
`NAME-VERSION-ARCH.tar.gz` and whose single internal top-level folder
(the arcname) is exactly `NAME-VERSION-ARCH`, with `NAME = libskia`
and `VERSION = m63`, provided the runtime architecture string contains
no slash. -/
theorem package_tarball_fixed_naming (root arch : String) (w : World)
    (habs : isAbsolute root = true) (hs : '/' ∉ arch.data) :
    sub_folder arch = "libskia-m63-" ++ arch ∧
    ∃ pre : List Event,
      (package root arch w).1.trace = w.trace ++ pre ++
        [Event.makeTarball (joinPath root "out") (sub_folder arch)
          (sub_folder arch ++ ".tar.gz") (sub_folder arch)] := by
  constructor
  · show ((("libskia" ++ "-") ++ "m63") ++ "-") ++ arch = "libskia-m63-" ++ arch
    rw [show ((("libskia" ++ "-") ++ "m63") ++ "-") = "libskia-m63-" from by decide]
  · refine ⟨(if w.outExists then [Event.rmtree root "out"] else []) ++
      [Event.mkdirParents root ("out" ++ "/" ++ sub_folder arch ++ "/lib"),
       Event.mkdirParents root ("out" ++ "/" ++ sub_folder arch ++ "/include"),
       Event.copyFile root "third_party/skia/out/Release/libskia.a" ("out" ++ "/" ++ sub_folder arch ++ "/lib"),
       Event.copyTree root "third_party/skia/include" ("out" ++ "/" ++ sub_folder arch ++ "/include")], ?_⟩
    rw [package_trace_eq root arch w habs, basename_no_slash _ (sub_folder_no_slash arch hs)]
    simp

/-- Witness for C3 at a concrete root and architecture. -/
theorem package_tarball_fixed_naming_witness :
    sub_folder "x86_64" = "libskia-m63-" ++ "x86_64" ∧
    ∃ pre : List Event,
      (package "/repo" "x86_64"
        { cwd := "/cur", pathEnv := "/usr/bin", outExists := false,
          procRets := [], trace := [] }).1.trace =
        ([] : List Event) ++ pre ++
        [Event.makeTarball (joinPath "/repo" "out") (sub_folder "x86_64")
          (sub_folder "x86_64" ++ ".tar.gz") (sub_folder "x86_64")] :=
  package_tarball_fixed_naming "/repo" "x86_64"
    { cwd := "/cur", pathEnv := "/usr/bin", outExists := false,
      procRets := [], trace := [] } (by decide) (by decide)

/-- C4: `main` performs the stages strictly in the fixed order — set
the `PATH` variable, run the dependency sync, run the `gn` generation,
run the `ninja` build, then package — with each external process
consuming its return code before the next step starts, and each stage
appearing exactly once in the resulting trace. -/
theorem main_runs_stages_in_fixed_order (root arch : String) (w : World)
    (habs : isAbsolute root = true) :
    (main root arch w).1.trace = w.trace ++
      [Event.setEnvPath (depotToolsDir root ++ ":" ++ w.pathEnv),
       Event.runProcess (joinPath root "third_party/skia") ["python", "tools/git-sync-deps"] (w.procRets.headD 0),
       Event.runShell (joinPath root "third_party/skia") (gnCommand IS_DEBUG CC CXX IS_OFFICIAL_BUILD) (w.procRets.tail.headD 0),
       Event.runProcess (joinPath root "third_party/skia") ["ninja", "-C", "out/Release"] (w.procRets.tail.tail.headD 0)] ++
      (if w.outExists then [Event.rmtree root "out"] else []) ++
      [Event.mkdirParents root ("out" ++ "/" ++ sub_folder arch ++ "/lib"),
       Event.mkdirParents root ("out" ++ "/" ++ sub_folder arch ++ "/include"),
       Event.copyFile root "third_party/skia/out/Release/libskia.a" ("out" ++ "/" ++ sub_folder arch ++ "/lib"),
       Event.copyTree root "third_party/skia/include" ("out" ++ "/" ++ sub_folder arch ++ "/include"),
       Event.makeTarball (joinPath root "out") (sub_folder arch) (sub_folder arch ++ ".tar.gz") (basename (sub_folder arch))] := by
  cases hout : w.outExists <;>
    simp [main, set_environment, depotToolsDir, sync_deps, generate_ninja_project,
      generate_ninja_project_with, build_ninja_project, package, scoped_cwd, chdir,
      getcwd, subprocess_run, subprocess_run_shell, path_exists, rmtree, mkdir_parents,
      copy2, copy_tree, make_tarball, CompletedProcess.toBool, joinPath, habs, hout,
      isAbs_skia, isAbs_out, isAbs_tps, isAbs_tp, isAbs_dt, tp_cat]

/-- Witness for C4 at a concrete root, architecture and initial
state, with the trace fully evaluated. -/
theorem main_runs_stages_in_fixed_order_witness :
    (main "/repo" "x86_64"
      { cwd := "/repo", pathEnv := "/usr/bin", outExists := true,
        procRets := [0, 0, 0], trace := [] }).1.trace =
      [Event.setEnvPath "/repo/third_party/depot_tools:/usr/bin",
       Event.runProcess "/repo/third_party/skia" ["python", "tools/git-sync-deps"] 0,
       Event.runShell "/repo/third_party/skia" "bin/gn gen out/Release --args=\x27is_debug=false cc=\"clang\" cxx=\"clang++\" is_official_build=true\x27" 0,
       Event.runProcess "/repo/third_party/skia" ["ninja", "-C", "out/Release"] 0,
       Event.rmtree "/repo" "out",
       Event.mkdirParents "/repo" "out/libskia-m63-x86_64/lib",
       Event.mkdirParents "/repo" "out/libskia-m63-x86_64/include",
       Event.copyFile "/repo" "third_party/skia/out/Release/libskia.a" "out/libskia-m63-x86_64/lib",
       Event.copyTree "/repo" "third_party/skia/include" "out/libskia-m63-x86_64/include",
       Event.makeTarball "/repo/out" "libskia-m63-x86_64" "libskia-m63-x86_64.tar.gz" "libskia-m63-x86_64"] :=
  main_runs_stages_in_fixed_order "/repo" "x86_64"
    { cwd := "/repo", pathEnv := "/usr/bin", outExists := true,
      procRets := [0, 0, 0], trace := [] } (by decide)

/-- C5 counterexample: the claim says the environment mutation is
restored like the working directory.  On a concrete run, after `main`
(all scoped blocks completed) the `PATH` variable is not back to its
original value. -/
theorem pathEnv_not_restored_counterexample :
    (main "/repo" "x86_64"
      { cwd := "/repo", pathEnv := "/usr/bin", outExists := false,
        procRets := [0, 0, 0], trace := [] }).1.pathEnv ≠ "/usr/bin" := by decide

/-- C5 amended: `scoped_cwd` restores only the working directory — it
passes the environment of the body through untouched — and the `PATH`
prepend made by `set_environment` persists for the whole run: after
`main`, `PATH` is the depot_tools directory prepended to the original
value, not the original value. -/
theorem scoped_cwd_keeps_env_and_path_prepend_persists (root arch : String) (w : World) :
    (∀ {α : Type} (path : String) (body : World → World × α),
       ((scoped_cwd path body w).1).pathEnv = ((body (chdir path w)).1).pathEnv) ∧
    (main root arch w).1.pathEnv = depotToolsDir root ++ ":" ++ w.pathEnv := by
  refine ⟨fun path body => rfl, ?_⟩
  cases hout : w.outExists <;>
    simp [main, set_environment, sync_deps, generate_ninja_project,
      generate_ninja_project_with, build_ninja_project, package, scoped_cwd, chdir,
      getcwd, subprocess_run, subprocess_run_shell, path_exists, rmtree, mkdir_parents,
      copy2, copy_tree, make_tarball, CompletedProcess.toBool, hout]

/-- C6: `package` copies the built static library into the `lib`
subfolder and the whole Skia include tree into the `include` subfolder
of the `NAME-VERSION-ARCH` folder, and only then builds the tarball:
both copy events precede the tarball event in the trace. -/
theorem package_copies_library_and_headers_before_tarball (root arch : String) (w : World)
    (habs : isAbsolute root = true) :
    (package root arch w).1.trace = w.trace ++
      (if w.outExists then [Event.rmtree root "out"] else []) ++
      [Event.mkdirParents root ("out" ++ "/" ++ sub_folder arch ++ "/lib"),
       Event.mkdirParents root ("out" ++ "/" ++ sub_folder arch ++ "/include"),
       Event.copyFile root "third_party/skia/out/Release/libskia.a" ("out" ++ "/" ++ sub_folder arch ++ "/lib"),
       Event.copyTree root "third_party/skia/include" ("out" ++ "/" ++ sub_folder arch ++ "/include"),
       Event.makeTarball (joinPath root "out") (sub_folder arch) (sub_folder arch ++ ".tar.gz") (basename (sub_folder arch))] :=
  package_trace_eq root arch w habs

/-- Witness for C6 at a concrete root, architecture and initial
state, with the trace fully evaluated. -/
theorem package_copies_library_and_headers_before_tarball_witness :
    (package "/repo" "x86_64"
      { cwd := "/cur", pathEnv := "/usr/bin", outExists := false,
        procRets := [], trace := [] }).1.trace =
      [Event.mkdirParents "/repo" "out/libskia-m63-x86_64/lib",
       Event.mkdirParents "/repo" "out/libskia-m63-x86_64/include",
       Event.copyFile "/repo" "third_party/skia/out/Release/libskia.a" "out/libskia-m63-x86_64/lib",
       Event.copyTree "/repo" "third_party/skia/include" "out/libskia-m63-x86_64/include",
       Event.makeTarball "/repo/out" "libskia-m63-x86_64" "libskia-m63-x86_64.tar.gz" "libskia-m63-x86_64"] :=
  package_copies_library_and_headers_before_tarball "/repo" "x86_64"
    { cwd := "/cur", pathEnv := "/usr/bin", outExists := false,
      procRets := [], trace := [] } (by decide)

/-- C8: when the `out` directory already exists at the repository
root, `package` deletes that entire tree first — the `rmtree` event is
the very first thing `package` does, before any directory of the
packaging layout is recreated. -/
theorem package_removes_existing_out_first (root arch : String) (w : World)
    (hout : w.outExists = true) (habs : isAbsolute root = true) :
    (package root arch w).1.trace = w.trace ++ [Event.rmtree root "out"] ++
      [Event.mkdirParents root ("out" ++ "/" ++ sub_folder arch ++ "/lib"),
       Event.mkdirParents root ("out" ++ "/" ++ sub_folder arch ++ "/include"),
       Event.copyFile root "third_party/skia/out/Release/libskia.a" ("out" ++ "/" ++ sub_folder arch ++ "/lib"),
       Event.copyTree root "third_party/skia/include" ("out" ++ "/" ++ sub_folder arch ++ "/include"),
       Event.makeTarball (joinPath root "out") (sub_folder arch) (sub_folder arch ++ ".tar.gz") (basename (sub_folder arch))] := by
  have h := package_trace_eq root arch w habs
  rw [hout] at h
  simpa using h

/-- Witness for C8 at a concrete state where `out` exists. -/
theorem package_removes_existing_out_first_witness :
    (package "/repo" "x86_64"
      { cwd := "/cur", pathEnv := "/usr/bin", outExists := true,
        procRets := [], trace := [] }).1.trace =
      [Event.rmtree "/repo" "out",
       Event.mkdirParents "/repo" "out/libskia-m63-x86_64/lib",
       Event.mkdirParents "/repo" "out/libskia-m63-x86_64/include",
       Event.copyFile "/repo" "third_party/skia/out/Release/libskia.a" "out/libskia-m63-x86_64/lib",
       Event.copyTree "/repo" "third_party/skia/include" "out/libskia-m63-x86_64/include",
       Event.makeTarball "/repo/out" "libskia-m63-x86_64" "libskia-m63-x86_64.tar.gz" "libskia-m63-x86_64"] :=
  package_removes_existing_out_first "/repo" "x86_64"
    { cwd := "/cur", pathEnv := "/usr/bin", outExists := true,
      procRets := [], trace := [] } (by decide) (by decide)

/-- C9: for every value of the two build flags, the `gn` command
`generate_ninja_project` runs starts with the fixed target
`bin/gn gen out/Release` (only the argument list between the quotes
varies), and `build_ninja_project` runs `ninja -C out/Release`; both
processes run in the `third_party/skia` directory, independently of
the flags.  A debug configuration is therefore still generated and
built under `out/Release`. -/
theorem project_dir_out_release_regardless_of_flags (d o : Bool) (root : String) (w : World) :
    ((generate_ninja_project_with d o root w).1.trace = w.trace ++
        [Event.runShell (joinPath (joinPath w.cwd root) "third_party/skia")
          ("bin/gn gen out/Release --args=\x27" ++ String.intercalate " " (gnArgList d CC CXX o) ++ "\x27")
          (w.procRets.headD 0)]) ∧
    (build_ninja_project root w).1.trace = w.trace ++
      [Event.runProcess (joinPath (joinPath w.cwd root) "third_party/skia")
        ["ninja", "-C", "out/Release"] (w.procRets.headD 0)] := by
  constructor <;>
    simp [generate_ninja_project_with, build_ninja_project, gnCommand, scoped_cwd,
      chdir, getcwd, subprocess_run, subprocess_run_shell, joinPath, isAbs_skia,
      isAbs_tps, tp_cat]

end LibskiaBuild
